import Mathlib

/-!
Verification of the ummatics-impact-monitor ingestion pipeline.

This file gives a shallow embedding, in Lean 4, of the parts of
`backend/ingestion.py`, `backend/transformer_sentiment.py` and
`backend/recalculate_engagement_rate.py` that the testable properties of the
specification talk about: the deduplicating persister (SQL
`ON CONFLICT` upserts modelled as conditional list updates), the
per-entry connector record construction, the relevance filters, the
engagement-rate and new-citation arithmetic, the sentiment text
cleaning, and the discovery-loop delta computation.

Texts are modelled as `List Char`; timestamps and dates as `ℤ`
(day numbers, with day 0 = 1970-01-01, a Thursday); Python `int`
arithmetic as `ℤ`/`ℕ`; Python true division as division in `ℚ`.
External library calls (HTML entity decoding, TextBlob polarity,
the transformer pipeline) are abstracted as function parameters;
everything else is translated clause-by-clause from the Python
source.
-/

namespace ImpactMonitor

/-! ## Basic text utilities shared by the connectors -/

/-- Python whitespace class used by `str.strip` and the regex class in the
cleaning code: space, tab, newline, carriage return, form feed, vertical tab. -/
def pyIsSpace (c : Char) : Bool :=
  c = ' ' || c = '\t' || c = '\n' || c = '\r' || c = '\x0c' || c = '\x0b'

/-- Regex word character `[a-zA-Z0-9_]`. -/
def isWordChar (c : Char) : Bool :=
  ('a' ≤ c && c ≤ 'z') || ('A' ≤ c && c ≤ 'Z') || ('0' ≤ c && c ≤ '9') || c = '_'

/-- Does `pat` occur at the head of `l`? -/
def startsWithSeq : List Char → List Char → Bool
  | [], _ => true
  | _ :: _, [] => false
  | p :: ps, c :: cs => p == c && startsWithSeq ps cs

/-- Python substring containment `pat in l`. -/
def containsSub (pat : List Char) : List Char → Bool
  | [] => pat.isEmpty
  | c :: rest => startsWithSeq pat (c :: rest) || containsSub pat rest

/-- `str.lower()` on the ASCII range (all match terms in the source are ASCII). -/
def toLowerList (l : List Char) : List Char := l.map Char.toLower

/-- The characters of a string literal. -/
def strChars (s : String) : List Char := s.data

/-- `str.strip()`: drop leading and trailing whitespace. -/
def pyStrip (l : List Char) : List Char :=
  ((l.dropWhile pyIsSpace).reverse.dropWhile pyIsSpace).reverse

/-- Python `str.replace(pat, rep)`: leftmost, non-overlapping, fuelled by the
input length (each step consumes at least one character, so the fuel is enough). -/
def pyReplaceAux (pat rep : List Char) : Nat → List Char → List Char
  | 0, l => l
  | _ + 1, [] => []
  | fuel + 1, c :: rest =>
    if pat ≠ [] ∧ startsWithSeq pat (c :: rest) then
      rep ++ pyReplaceAux pat rep fuel ((c :: rest).drop pat.length)
    else
      c :: pyReplaceAux pat rep fuel rest

/-- Python `str.replace(pat, rep)`. -/
def pyReplace (pat rep l : List Char) : List Char := pyReplaceAux pat rep l.length l

/-! ## Dates (`get_current_week_dates`, ingestion.py lines 55-60)

A date is a day number `d : ℤ` with day 0 = 1970-01-01 (a Thursday), so
the Python `date.weekday()` value (Monday = 0) is `(d + 3) % 7`. -/

/-- Python `date.weekday()`: 0 for Monday through 6 for Sunday. -/
def weekdayOf (d : ℤ) : ℤ := (d + 3) % 7

/-- `get_current_week_dates()`: the Monday and Sunday of the week containing
`today` (`monday = today - timedelta(days=today.weekday())`). -/
def get_current_week_dates (today : ℤ) : ℤ × ℤ :=
  (today - weekdayOf today, today - weekdayOf today + 6)

/-! ## Engagement rate (ingestion.py line 911, recalculate_engagement_rate.py lines 58-63)

`engagement_rate = (total_engagement / follower_count * 100) if follower_count > 0 else 0`,
identical in both files; Python true division is modelled in `ℚ`. -/

/-- The engagement-rate computation shared by `ingest_twitter` and
`recalculate_engagement_rates`. -/
def engagementRate (totalEngagement followerCount : ℕ) : ℚ :=
  if 0 < followerCount then (totalEngagement : ℚ) / (followerCount : ℚ) * 100 else 0

/-! ## New-citation count (ingestion.py line 1176)

`new_citations = max(0, total_citations - previous_total)`. -/

/-- Week-over-week new-citation count computed by `ingest_openalex`. -/
def newCitationsThisWeek (total previous : ℤ) : ℤ := max 0 (total - previous)

/-! ## Store rows and the deduplicating persister

The relational store is modelled per table as a `List` of rows; each SQL
`INSERT ... ON CONFLICT` statement becomes a conditional list update keyed
by the uniqueness constraint of the table. -/

/-- A row of the `social_mentions` table (ingestion.py lines 547-554 and
880-885); unique constraint on `post_id`. -/
structure SocialMention where
  week_start_date : ℤ
  platform : String
  post_id : String
  author : String
  content : List Char
  post_url : String
  posted_at : ℤ
  likes : ℕ
  retweets : ℕ
  replies : ℕ
  sentiment : String
  sentiment_score : ℚ
  sentiment_analyzed_at : ℤ
deriving DecidableEq

/-- A row of the `news_mentions` table (ingestion.py lines 211-215); unique
constraint on `(url, title)`. -/
structure NewsMention where
  week_start_date : ℤ
  title : String
  url : String
  source : String
  published_at : ℤ
  snippet : List Char
deriving DecidableEq

/-- A row of the `citations` table (ingestion.py lines 1145-1154); unique
constraint on `work_id`. -/
structure Citation where
  work_id : String
  doi : String
  title : String
  authors : String
  publication_date : Option ℤ
  cited_by_count : ℕ
  source_url : String
  citation_type : String
  is_dead : Bool
  updated_at : ℤ
deriving DecidableEq

/-- `INSERT INTO social_mentions ... ON CONFLICT (post_id) DO NOTHING`
(used verbatim by both `ingest_reddit` and `ingest_twitter`): if a row with
the same `post_id` is already stored, nothing changes; otherwise the row is
appended.  The boolean is `cur.rowcount > 0`, i.e. whether an insert happened. -/
def upsertSocialMention (tbl : List SocialMention) (r : SocialMention) :
    List SocialMention × Bool :=
  if ∃ x ∈ tbl, x.post_id = r.post_id then (tbl, false) else (tbl ++ [r], true)

/-- The `(url, title)` natural key of a news row. -/
def keyOfNews (r : NewsMention) : String × String := (r.url, r.title)

/-- `INSERT INTO news_mentions ... ON CONFLICT (url, title) DO NOTHING`
(`ingest_google_alerts`). -/
def upsertNewsMention (tbl : List NewsMention) (r : NewsMention) :
    List NewsMention × Bool :=
  if ∃ x ∈ tbl, x.url = r.url ∧ x.title = r.title then (tbl, false)
  else (tbl ++ [r], true)

/-- `INSERT INTO citations ... ON CONFLICT (work_id) DO UPDATE SET
cited_by_count = EXCLUDED.cited_by_count, citation_type = EXCLUDED.citation_type,
updated_at = EXCLUDED.updated_at` (`ingest_openalex`): on conflict the stored
row keeps every column except the three listed in the `DO UPDATE SET`. -/
def upsertCitation (tbl : List Citation) (r : Citation) : List Citation :=
  if ∃ x ∈ tbl, x.work_id = r.work_id then
    tbl.map fun x =>
      if x.work_id = r.work_id then
        { x with cited_by_count := r.cited_by_count,
                 citation_type := r.citation_type,
                 updated_at := r.updated_at }
      else x
  else tbl ++ [r]

/-! ## News connector (`ingest_google_alerts`, ingestion.py lines 202-222)

Per entry the code reads `entry.get("title", "")`, `entry.get("link", "")`,
`entry.get("source", dict()).get("title", "Unknown")`, the published date
(falling back to `datetime.now()`), and `entry.get("summary", "")[:500]`,
then runs the
news upsert.  There is no validation: a missing title or link simply defaults
to the empty string. -/

/-- A parsed feed entry as seen by the news connector; `none` stands for a
field absent from the feed entry. -/
structure FeedEntry where
  entry_title : Option String
  entry_link : Option String
  entry_source : Option String
  entry_published : Option ℤ
  entry_summary : Option (List Char)
deriving DecidableEq

/-- The news row built from a feed entry (`now` is the run timestamp; the
week start comes from `get_current_week_dates`). -/
def newsRowOf (now : ℤ) (e : FeedEntry) : NewsMention :=
  { week_start_date := (get_current_week_dates now).1
  , title := e.entry_title.getD ""
  , url := e.entry_link.getD ""
  , source := e.entry_source.getD "Unknown"
  , published_at := e.entry_published.getD now
  , snippet := (e.entry_summary.getD []).take 500 }

/-- The per-feed loop of `ingest_google_alerts`: every entry is turned into a
row and upserted; none is skipped. -/
def ingest_google_alerts (now : ℤ) (entries : List FeedEntry)
    (tbl : List NewsMention) : List NewsMention :=
  entries.foldl (fun t e => (upsertNewsMention t (newsRowOf now e)).1) tbl

/-! ## Reddit connector (`ingest_reddit`, ingestion.py lines 500-554)

For each feed entry the code: skips it when `entry.get("id", "")` is empty;
builds `combined_text = f"{title} {full_summary}".lower()` and skips the entry
unless `"ummatics"` or `"ummatic"` occurs in it (the *full*, untruncated
summary); then HTML-decodes the summary, strips `<...>` tags with
`re.sub` with pattern `<[^>]+>`, truncates to 1000 characters, analyzes
sentiment on `f"{title} {content}"`, and upserts the row with zero engagement
counts.  `html.unescape` and the TextBlob polarity are library calls and are
abstracted as parameters. -/

/-- A parsed Reddit RSS entry as seen by `ingest_reddit`. -/
structure RedditEntry where
  post_id : String
  title : List Char
  author : String
  link : String
  summary : List Char
  posted_at : ℤ
deriving DecidableEq

/-- The relevance filter of `ingest_reddit` (lines 513-517): case-insensitive
substring match for `ummatics`/`ummatic` on title plus *untruncated* summary. -/
def redditRelevant (title summary : List Char) : Bool :=
  let combined := toLowerList (title ++ ' ' :: summary)
  containsSub (strChars "ummatics") combined || containsSub (strChars "ummatic") combined

/-- One step of the tag-removing `re.sub`: try to consume a `<[^>]+>` tag at
the head of the list. -/
def dropTag : List Char → Option (List Char)
  | [] => none
  | c :: rest =>
    if c = '<' then
      match rest.span (fun d => !(d == '>')) with
      | (tok, d :: rem) => if tok.isEmpty then none else if d == '>' then some rem else none
      | (_, []) => none
    else none

/-- Fuelled global substitution for the tag-removing `re.sub`; every step
consumes at least one character, so fuel equal to the length suffices. -/
def stripTagsAux : Nat → List Char → List Char
  | 0, l => l
  | _ + 1, [] => []
  | fuel + 1, c :: rest =>
    match dropTag (c :: rest) with
    | some rem => stripTagsAux fuel rem
    | none => c :: stripTagsAux fuel rest

/-- The `re.sub` removing every `<[^>]+>` tag (tag stripping in `ingest_reddit`). -/
def stripHtmlTags (l : List Char) : List Char := stripTagsAux l.length l

/-- The per-entry pipeline of `ingest_reddit`: returns `none` when the entry
is skipped (no id, or relevance filter fails), otherwise the row handed to
the social-mention upsert.  `unescape` abstracts `html.unescape`, `sentimentOf`
abstracts `analyze_sentiment_textblob`, `now` is the run date. -/
def processRedditEntry (unescape : List Char → List Char)
    (sentimentOf : List Char → String × ℚ) (now : ℤ) (e : RedditEntry) :
    Option SocialMention :=
  if e.post_id = "" then none
  else if redditRelevant e.title e.summary = false then none
  else
    let content := (stripHtmlTags (unescape e.summary)).take 1000
    let sent := sentimentOf (e.title ++ ' ' :: content)
    some
      { week_start_date := (get_current_week_dates now).1
      , platform := "Reddit"
      , post_id := e.post_id
      , author := e.author
      , content := content
      , post_url := e.link
      , posted_at := e.posted_at
      , likes := 0
      , retweets := 0
      , replies := 0
      , sentiment := sent.1
      , sentiment_score := sent.2
      , sentiment_analyzed_at := now }

/-! ## Twitter connector (`ingest_twitter`, ingestion.py lines 630-755 and 880-885) -/

/-- A tweet in the common shape both tiers are converted to. -/
structure Tweet where
  id : String
  text : List Char
  author_username : String
  url : String
  posted_at : ℤ
  likeCount : ℕ
  retweetCount : ℕ
  replyCount : ℕ
deriving DecidableEq

/-- Outcome of the primary-tier `requests.get` against the Twitter search API:
a 200 response with parsed tweets, a non-200 status (429 rate limit, 401 auth
failure, ...), or a raised exception (network error and the like). -/
inductive PrimaryFetch where
  | ok (tweets : List Tweet)
  | httpFail (status : ℕ)
  | raised
deriving DecidableEq

/-- Outcome of the Apify scraping-service tier: the dataset items, or a raised
exception. -/
inductive ApifyFetch where
  | items (ts : List Tweet)
  | raised
deriving DecidableEq

/-- Result of the gathering phase of `ingest_twitter`: either the function
returned early (exception from the primary tier with no Apify token
configured), or it gathered `tweets`, with `usedApify` recording whether the
scraping tier was invoked. -/
inductive GatherResult where
  | aborted
  | gathered (tweets : List Tweet) (usedApify : Bool)
deriving DecidableEq

/-- Word-boundary search: does `pat` (a run of word characters) occur in the
text with non-word characters (or the text ends) on both sides?  `prev` is the
character before the current position.  Models the `re.search` with pattern
`\bummatics\b`. -/
def wbSearch (pat : List Char) : Option Char → List Char → Bool
  | _, [] => false
  | prev, c :: rest =>
    let before := match prev with
      | none => true
      | some p => !(isWordChar p)
    let after := match (c :: rest).drop pat.length with
      | [] => true
      | d :: _ => !(isWordChar d)
    (before && startsWithSeq pat (c :: rest) && after) || wbSearch pat (some c) rest

/-- The strict word-boundary relevance filter applied to Apify items
(ingestion.py lines 737-750): `item.get("text", "").lower()` must contain `ummatics`
or `ummatic` as a whole word. -/
def apifyStrictFilter (ts : List Tweet) : List Tweet :=
  ts.filter fun t =>
    let lowered := toLowerList t.text
    wbSearch (strChars "ummatics") none lowered || wbSearch (strChars "ummatic") none lowered

/-- The tweet-gathering phase of `ingest_twitter` (lines 632-755).  The primary
HTTP status of the primary tier is inspected inside the `try` block: 429 logs a warning,
200 yields the tweets, any other status logs an error — none of these reach
the `except` clause.  Only a raised exception falls into the `except` clause,
which returns early when no Apify token is configured and otherwise runs the
scraping tier, whose items pass the strict word-boundary filter. -/
def gatherTweets (primary : PrimaryFetch) (apifyConfigured : Bool)
    (apify : ApifyFetch) : GatherResult :=
  match primary with
  | .ok ts => .gathered ts false
  | .httpFail _ => .gathered [] false
  | .raised =>
    if apifyConfigured then
      match apify with
      | .items ts => .gathered (apifyStrictFilter ts) true
      | .raised => .gathered [] true
    else .aborted

/-- Whether the scraping tier was invoked. -/
def usedFallback : GatherResult → Bool
  | .aborted => false
  | .gathered _ u => u

/-- The `social_mentions` row built for a tweet (ingestion.py lines 880-885):
`week_start_date` is the Monday computed from the run date `now`, engagement
counts come from the tweet, sentiment from `analyze_sentiment_textblob`
(abstracted as `sentimentOf`). -/
def twitterMentionRow (sentimentOf : List Char → String × ℚ) (now : ℤ)
    (t : Tweet) : SocialMention :=
  let sent := sentimentOf t.text
  { week_start_date := (get_current_week_dates now).1
  , platform := "Twitter"
  , post_id := t.id
  , author := t.author_username
  , content := t.text
  , post_url := t.url
  , posted_at := t.posted_at
  , likes := t.likeCount
  , retweets := t.retweetCount
  , replies := t.replyCount
  , sentiment := sent.1
  , sentiment_score := sent.2
  , sentiment_analyzed_at := now }

/-! ## Discovery loop (`google_search_subreddits` lines 285-300,
`discover_new_subreddits` lines 413-422)

Both strategies extract the configured subreddit set from the `REDDIT_RSS_URLS`
environment value with an `re.search` for `/r/([a-zA-Z0-9_]+)/` (lower-casing
the capture) and then compute a set difference.  `google_search_subreddits`
also reads the `discovered_subreddits` table and subtracts it;
`discover_new_subreddits` subtracts only the configured set. -/

/-- First match of `/r/([a-zA-Z0-9_]+)/` in a URL: the capture group. -/
def extractSubredditAux : List Char → Option (List Char)
  | [] => none
  | c :: rest =>
    if c = '/' && startsWithSeq (strChars "r/") rest then
      let body := rest.drop 2
      let tok := body.takeWhile isWordChar
      if !tok.isEmpty && (body.dropWhile isWordChar).head? == some '/' then some tok
      else extractSubredditAux rest
    else extractSubredditAux rest

/-- The first `re.search` match of `/r/([a-zA-Z0-9_]+)/` in a URL, then
`.group(1).lower()`. -/
def extractSubreddit (url : List Char) : Option String :=
  (extractSubredditAux url).map fun t => String.mk (toLowerList t)

/-- The currently-configured subreddit set derived from the feed URLs. -/
def currentFromUrls (urls : List (List Char)) : Finset String :=
  (urls.filterMap extractSubreddit).toFinset

/-- `google_search_subreddits`:
`new_subreddits = discovered_subreddits - current_subreddits - db_subreddits`. -/
def googleNewDelta (discovered : Finset String) (urls : List (List Char))
    (db : Finset String) : Finset String :=
  (discovered \ currentFromUrls urls) \ db

/-- `discover_new_subreddits`:
`new_subreddits = discovered_subreddits - current_subreddits`
(the stored `discovered_subreddits` table is not consulted). -/
def redditNewDelta (discovered : Finset String) (urls : List (List Char)) :
    Finset String :=
  discovered \ currentFromUrls urls

/-! ## Sentiment text cleaning

The TextBlob tier (`analyze_sentiment` lines 82-88, `analyze_sentiment_textblob`
lines 111-117) cleans with
an `re.sub` deleting the pattern `^RT\s+@\w+:\s*`, an `re.sub` deleting
`http[s]?://\S+`, a `replace` of U+2026 by a space, and an `re.sub` of `\s+`
by a single space followed by `strip`.

The transformer tier (`transformer_sentiment.py` lines 30-36) instead does an
`RT` check via `s.strip().upper().startswith("RT")` with a `split` on the
first colon, then `re.sub(r"https?://\\S+", "", s)` and `re.sub(r"\\s+", " ", s)`.
In those two raw strings `\\S` and `\\s` are an escaped *literal backslash*
followed by the letter `S`/`s`, not the character classes, so they only match
a backslash followed by `S`s (resp. `s`s); the embedding reproduces this
behaviour exactly. -/

/-- The `re.sub` deleting the pattern `^RT\s+@\w+:\s*`: strip a leading
reshare marker. -/
def stripRTMarker (l : List Char) : List Char :=
  match l with
  | 'R' :: 'T' :: rest =>
    let r1 := rest.dropWhile pyIsSpace
    if (rest.takeWhile pyIsSpace).isEmpty then l else
    match r1 with
    | '@' :: r2 =>
      let r3 := r2.dropWhile isWordChar
      if (r2.takeWhile isWordChar).isEmpty then l else
      match r3 with
      | ':' :: r4 => r4.dropWhile pyIsSpace
      | _ => l
    | _ => l
  | _ => l

/-- One step of the `re.sub` deleting `http[s]?://\S+`: consume a URL at the
head. -/
def dropUrlAt : List Char → Option (List Char)
  | 'h' :: 't' :: 't' :: 'p' :: rest =>
    let afterScheme : Option (List Char) :=
      match rest with
      | 's' :: ':' :: '/' :: '/' :: r => some r
      | ':' :: '/' :: '/' :: r => some r
      | _ => none
    match afterScheme with
    | some r =>
      if (r.takeWhile (fun c => !(pyIsSpace c))).isEmpty then none
      else some (r.dropWhile (fun c => !(pyIsSpace c)))
    | none => none
  | _ => none

/-- Fuelled global substitution for the `re.sub` deleting `http[s]?://\S+`. -/
def stripUrlsAux : Nat → List Char → List Char
  | 0, l => l
  | _ + 1, [] => []
  | fuel + 1, c :: rest =>
    match dropUrlAt (c :: rest) with
    | some rem => stripUrlsAux fuel rem
    | none => c :: stripUrlsAux fuel rest

/-- The `re.sub` deleting every match of `http[s]?://\S+`: remove URLs. -/
def stripUrls (l : List Char) : List Char := stripUrlsAux l.length l

/-- The `re.sub` replacing `\s+` by one space: collapse every whitespace run. -/
def collapseWsAux : Bool → List Char → List Char
  | _, [] => []
  | prevSpace, c :: rest =>
    if pyIsSpace c then
      if prevSpace then collapseWsAux true rest
      else ' ' :: collapseWsAux true rest
    else c :: collapseWsAux false rest

/-- The `re.sub` replacing `\s+` by one space. -/
def collapseWs (l : List Char) : List Char := collapseWsAux false l

/-- The TextBlob-tier cleaning pipeline (ingestion.py lines 84-88 and 113-117):
strip the reshare marker, strip URLs, replace the ellipsis character by a
space, collapse whitespace, strip. -/
def cleanTextblob (l : List Char) : List Char :=
  pyStrip (collapseWs (pyReplace (strChars "…") (strChars " ") (stripUrls (stripRTMarker l))))

/-- The `RT` handling of the transformer tier (transformer_sentiment.py
lines 31-32): if the stripped, upper-cased text starts with `RT`, keep what
follows the first `:` (or drop two characters when there is no `:`). -/
def transformerRTStrip (l : List Char) : List Char :=
  if startsWithSeq (strChars "RT") ((pyStrip l).map Char.toUpper) then
    if l.contains ':' then (l.dropWhile (fun c => !(c == ':'))).drop 1
    else l.drop 2
  else l

/-- One step of `re.sub(r"https?://\\S+", "", s)` as actually written: the
doubled backslash makes `\\S+` a literal backslash followed by one or more
letters `S`, so only `http://` or `https://` followed by `\SS...S` matches. -/
def dropBrokenUrlAt : List Char → Option (List Char)
  | 'h' :: 't' :: 't' :: 'p' :: rest =>
    let afterScheme : Option (List Char) :=
      match rest with
      | 's' :: ':' :: '/' :: '/' :: r => some r
      | ':' :: '/' :: '/' :: r => some r
      | _ => none
    match afterScheme with
    | some ('\\' :: r) =>
      if (r.takeWhile (fun c => c == 'S')).isEmpty then none
      else some (r.dropWhile (fun c => c == 'S'))
    | _ => none
  | _ => none

/-- Fuelled global substitution for the doubled-backslash URL regex. -/
def stripBrokenUrlsAux : Nat → List Char → List Char
  | 0, l => l
  | _ + 1, [] => []
  | fuel + 1, c :: rest =>
    match dropBrokenUrlAt (c :: rest) with
    | some rem => stripBrokenUrlsAux fuel rem
    | none => c :: stripBrokenUrlsAux fuel rest

/-- `re.sub(r"https?://\\S+", "", s)` as actually written. -/
def stripBrokenUrls (l : List Char) : List Char := stripBrokenUrlsAux l.length l

/-- `re.sub(r"\\s+", " ", s)` as actually written: the doubled backslash makes
it replace a literal backslash followed by one or more letters `s`, not
whitespace runs. -/
def subBrokenWsAux : Nat → List Char → List Char
  | 0, l => l
  | _ + 1, [] => []
  | fuel + 1, c :: rest =>
    if c = '\\' then
      match rest with
      | 's' :: _ => ' ' :: subBrokenWsAux fuel (rest.dropWhile (fun d => d == 's'))
      | _ => c :: subBrokenWsAux fuel rest
    else c :: subBrokenWsAux fuel rest

/-- `re.sub(r"\\s+", " ", s)` as actually written. -/
def subBrokenWs (l : List Char) : List Char := subBrokenWsAux l.length l

/-- The transformer-tier cleaning pipeline (transformer_sentiment.py
lines 30-36): `RT` handling, the (broken) URL substitution, `"..."` and the
mojibake ellipsis replaced by spaces, the (broken) whitespace substitution,
then `strip`. -/
def cleanTransformer (l : List Char) : List Char :=
  pyStrip (subBrokenWs (pyReplace (strChars "â€¦") (strChars " ")
    (pyReplace (strChars "...") (strChars " ")
      (stripBrokenUrls (transformerRTStrip l)))))

/-! ## Concrete example inputs used by witnesses and counterexamples -/

/-- A stored social mention (first ingestion run). -/
def exSocialA : SocialMention :=
  { week_start_date := 4, platform := "Twitter", post_id := "1780000000000000001"
  , author := "someone", content := strChars "ummatics is interesting"
  , post_url := "https://twitter.com/someone/status/1780000000000000001"
  , posted_at := 4, likes := 5, retweets := 1, replies := 0
  , sentiment := "positive", sentiment_score := 1/2, sentiment_analyzed_at := 4 }

/-- The same natural key delivered by a second run with different engagement
counts. -/
def exSocialA2 : SocialMention :=
  { exSocialA with likes := 99, retweets := 40, replies := 7, sentiment_analyzed_at := 5 }

/-- A stored news mention. -/
def exNewsA : NewsMention :=
  { week_start_date := 4, title := "Alpha piece", url := "https://news.example/a"
  , source := "Example News", published_at := 3, snippet := strChars "first snippet" }

/-- The same `(url, title)` key from a second run with a different snippet. -/
def exNewsA2 : NewsMention :=
  { exNewsA with published_at := 4, snippet := strChars "second snippet" }

/-- A Reddit entry whose only match term sits beyond the 1000-character storage
truncation offset. -/
def exLateRedditEntry : RedditEntry :=
  { post_id := "t3_late", title := strChars "late", author := "u_late"
  , link := "https://reddit.example/late"
  , summary := List.replicate 1100 'x' ++ strChars " ummatics", posted_at := 0 }

/-- A short relevant Reddit entry. -/
def exShortRedditEntry : RedditEntry :=
  { post_id := "t3_short", title := strChars "about ummatics", author := "u_short"
  , link := "https://reddit.example/short", summary := strChars "a comment", posted_at := 0 }

/-- A valid feed entry (title and link present). -/
def exNewsE1 : FeedEntry :=
  { entry_title := some "Alpha", entry_link := some "http://a.example"
  , entry_source := some "SrcA", entry_published := some 1
  , entry_summary := some (strChars "sa") }

/-- A second valid feed entry. -/
def exNewsE2 : FeedEntry :=
  { entry_title := some "Beta", entry_link := some "http://b.example"
  , entry_source := some "SrcB", entry_published := some 2
  , entry_summary := some (strChars "sb") }

/-- A feed entry missing its link. -/
def exNewsE3 : FeedEntry :=
  { entry_title := some "Gamma", entry_link := none
  , entry_source := none, entry_published := none, entry_summary := none }

/-- A tweet that the scraping tier could have returned. -/
def exTweet : Tweet :=
  { id := "1780000000000000002", text := strChars "ummatics again"
  , author_username := "other"
  , url := "https://twitter.com/other/status/1780000000000000002"
  , posted_at := 0, likeCount := 2, retweetCount := 0, replyCount := 1 }

/-- A stored citation row classified as organizational. -/
def exCitOld : Citation :=
  { work_id := "https://openalex.org/W1", doi := "10.1/x", title := "Work one"
  , authors := "Author One", publication_date := some 100, cited_by_count := 3
  , source_url := "https://openalex.org/W1", citation_type := "organization"
  , is_dead := false, updated_at := 50 }

/-- The same work re-fetched with a different citation count and a different
heuristic classification. -/
def exCitNew : Citation :=
  { exCitOld with cited_by_count := 7, citation_type := "word", updated_at := 60 }

end ImpactMonitor

namespace ImpactMonitor

/-! ## C6: engagement rate -/

/-- C6 counterexample: with 0 total engagement and 10 followers the computed
engagement rate is 0 although the follower count is nonzero, so the rate does
not equal 0 *exactly* when the follower count is 0. -/
theorem engagementRate_zero_iff_cex :
    ¬ (engagementRate 0 10 = 0 ↔ (10 : ℕ) = 0) := by
  intro h
  have h0 : engagementRate 0 10 = 0 := by norm_num [engagementRate]
  exact absurd (h.mp h0) (by norm_num)

/-- C6 (amended): for all non-negative inputs the engagement rate is ≥ 0, a
zero follower count yields 0 (no division by zero), and the rate is 0 exactly
when the follower count is 0 *or* the total engagement is 0. -/
theorem engagementRate_nonneg_and_zero_iff (e f : ℕ) :
    0 ≤ engagementRate e f ∧ (engagementRate e f = 0 ↔ f = 0 ∨ e = 0) := by
  unfold engagementRate
  by_cases hf : 0 < f
  · rw [if_pos hf]
    have hf0 : (f : ℚ) ≠ 0 := Nat.cast_ne_zero.mpr (Nat.pos_iff_ne_zero.mp hf)
    constructor
    · positivity
    · constructor
      · intro h
        rcases mul_eq_zero.mp h with h1 | h1
        · rcases div_eq_zero_iff.mp h1 with h2 | h2
          · exact Or.inr (Nat.cast_eq_zero.mp h2)
          · exact absurd h2 hf0
        · norm_num at h1
      · rintro (h | h)
        · omega
        · subst h; simp
  · rw [if_neg hf]
    have hf' : f = 0 := by omega
    simp [hf']

/-- C6 witness for the amended statement at `e = 7`, `f = 0`. -/
theorem engagementRate_nonneg_and_zero_iff_witness :
    0 ≤ engagementRate 7 0 ∧ (engagementRate 7 0 = 0 ↔ (0 : ℕ) = 0 ∨ (7 : ℕ) = 0) :=
  engagementRate_nonneg_and_zero_iff 7 0

/-! ## C7: new-citation clamping -/

/-- C7: the week-over-week new-citation count is `max(0, total − previous)`:
it is never negative, it clamps to 0 whenever the current total is below the
previous total, and otherwise it is the plain difference. -/
theorem newCitationsThisWeek_clamped (total previous : ℤ) :
    0 ≤ newCitationsThisWeek total previous ∧
    (total < previous → newCitationsThisWeek total previous = 0) ∧
    (previous ≤ total → newCitationsThisWeek total previous = total - previous) := by
  unfold newCitationsThisWeek
  exact ⟨le_max_left 0 _, fun h => max_eq_left (by omega),
    fun h => max_eq_right (by omega)⟩

/-- C7 witness: a shrinking total (3 after 5) clamps to 0; a growing total
(7 after 5) yields the difference 2. -/
theorem newCitationsThisWeek_clamped_witness :
    newCitationsThisWeek 3 5 = 0 ∧ newCitationsThisWeek 7 5 = 2 := by
  refine ⟨(newCitationsThisWeek_clamped 3 5).2.1 (by norm_num), ?_⟩
  have h := (newCitationsThisWeek_clamped 7 5).2.2 (by norm_num)
  omega

/-! ## C1: idempotent, content-preserving upsert -/

/-- After a social-mention upsert the table contains the natural key of the
upserted row. -/
theorem upsertSocialMention_key_mem (tbl : List SocialMention) (r : SocialMention) :
    ∃ x ∈ (upsertSocialMention tbl r).1, x.post_id = r.post_id := by
  unfold upsertSocialMention
  split
  · next h => exact h
  · exact ⟨r, by simp, rfl⟩

/-- After a news upsert the table contains the `(url, title)` key of the
upserted row. -/
theorem upsertNewsMention_key_mem (tbl : List NewsMention) (r : NewsMention) :
    ∃ x ∈ (upsertNewsMention tbl r).1, x.url = r.url ∧ x.title = r.title := by
  unfold upsertNewsMention
  split
  · next h => exact h
  · exact ⟨r, by simp, rfl, rfl⟩

/-- C1: running the persister upsert a second time with the same natural key
(`post_id` for the `social_mentions` table shared by the Reddit and Twitter
connectors, `(url, title)` for `news_mentions`) leaves the stored table —
every row and every field, engagement counts included — exactly as after the
first run, hence also the row count; the second record may differ arbitrarily
in its other fields (in particular its engagement counts). -/
theorem upsert_second_run_noop
    (stbl : List SocialMention) (r r' : SocialMention) (hs : r'.post_id = r.post_id)
    (ntbl : List NewsMention) (m m' : NewsMention)
    (hu : m'.url = m.url) (ht : m'.title = m.title) :
    (upsertSocialMention (upsertSocialMention stbl r).1 r').1 = (upsertSocialMention stbl r).1 ∧
    ((upsertSocialMention (upsertSocialMention stbl r).1 r').1).length
      = ((upsertSocialMention stbl r).1).length ∧
    (upsertNewsMention (upsertNewsMention ntbl m).1 m').1 = (upsertNewsMention ntbl m).1 ∧
    ((upsertNewsMention (upsertNewsMention ntbl m).1 m').1).length
      = ((upsertNewsMention ntbl m).1).length := by
  have socConflict : ∀ (tbl : List SocialMention) (q : SocialMention),
      (∃ y ∈ tbl, y.post_id = q.post_id) → upsertSocialMention tbl q = (tbl, false) := by
    intro tbl q h
    unfold upsertSocialMention
    rw [if_pos h]
  have newsConflict : ∀ (tbl : List NewsMention) (q : NewsMention),
      (∃ y ∈ tbl, y.url = q.url ∧ y.title = q.title) →
      upsertNewsMention tbl q = (tbl, false) := by
    intro tbl q h
    unfold upsertNewsMention
    rw [if_pos h]
  have hsoc : (upsertSocialMention (upsertSocialMention stbl r).1 r').1
      = (upsertSocialMention stbl r).1 := by
    obtain ⟨x, hx, hk⟩ := upsertSocialMention_key_mem stbl r
    rw [socConflict _ r' ⟨x, hx, by rw [hk, hs]⟩]
  have hnews : (upsertNewsMention (upsertNewsMention ntbl m).1 m').1
      = (upsertNewsMention ntbl m).1 := by
    obtain ⟨x, hx, hk1, hk2⟩ := upsertNewsMention_key_mem ntbl m
    rw [newsConflict _ m' ⟨x, hx, by rw [hk1, hu], by rw [hk2, ht]⟩]
  exact ⟨hsoc, by rw [hsoc], hnews, by rw [hnews]⟩

/-- C1 witness: a second run delivering the same keys with different
engagement counts (`exSocialA2` versus `exSocialA`) and a different snippet
(`exNewsA2` versus `exNewsA`) leaves both tables unchanged. -/
theorem upsert_second_run_noop_witness :
    (upsertSocialMention (upsertSocialMention [] exSocialA).1 exSocialA2).1
      = (upsertSocialMention [] exSocialA).1 ∧
    ((upsertSocialMention (upsertSocialMention [] exSocialA).1 exSocialA2).1).length
      = ((upsertSocialMention [] exSocialA).1).length ∧
    (upsertNewsMention (upsertNewsMention [] exNewsA).1 exNewsA2).1
      = (upsertNewsMention [] exNewsA).1 ∧
    ((upsertNewsMention (upsertNewsMention [] exNewsA).1 exNewsA2).1).length
      = ((upsertNewsMention [] exNewsA).1).length :=
  upsert_second_run_noop [] exSocialA exSocialA2 rfl [] exNewsA exNewsA2 rfl rfl

/-! ## C5: citation upsert frame -/

/-- C5 counterexample: on a `work_id` conflict the stored row does not keep
`citation_type` — re-fetching `exCitOld` (classified "organization") as
`exCitNew` (classified "word") overwrites the stored classification, so the
update does not change `cited_by_count` and `updated_at` *only*. -/
theorem upsertCitation_overwrites_citation_type_cex :
    (upsertCitation [exCitOld] exCitNew).map (fun x => x.citation_type) = ["word"] ∧
    exCitOld.citation_type = "organization" := by
  constructor
  · decide
  · rfl

/-- C5 (amended): on a `work_id` conflict the update changes `cited_by_count`,
`citation_type` and `updated_at` of the stored row and nothing else — `doi`,
`title`, `authors`, `publication_date`, `source_url` and `is_dead` are kept,
no row is added or removed, and rows with other keys are untouched. -/
theorem upsertCitation_conflict_frame (tbl : List Citation) (r x : Citation)
    (hx : x ∈ tbl) (hk : x.work_id = r.work_id) :
    (upsertCitation tbl r).length = tbl.length ∧
    { x with cited_by_count := r.cited_by_count, citation_type := r.citation_type,
             updated_at := r.updated_at } ∈ upsertCitation tbl r ∧
    ∀ y ∈ tbl, y.work_id ≠ r.work_id → y ∈ upsertCitation tbl r := by
  have hconf : ∃ z ∈ tbl, z.work_id = r.work_id := ⟨x, hx, hk⟩
  unfold upsertCitation
  rw [if_pos hconf]
  refine ⟨List.length_map _ _, ?_, ?_⟩
  · exact List.mem_map.mpr ⟨x, hx, by rw [if_pos hk]⟩
  · intro y hy hne
    exact List.mem_map.mpr ⟨y, hy, by rw [if_neg hne]⟩

/-- C5 witness for the amended statement: updating `exCitOld` with `exCitNew`
keeps the row count at 1 and stores the old row with exactly the three fields
refreshed. -/
theorem upsertCitation_conflict_frame_witness :
    (upsertCitation [exCitOld] exCitNew).length = [exCitOld].length ∧
    { exCitOld with cited_by_count := exCitNew.cited_by_count,
                    citation_type := exCitNew.citation_type,
                    updated_at := exCitNew.updated_at } ∈ upsertCitation [exCitOld] exCitNew ∧
    ∀ y ∈ [exCitOld], y.work_id ≠ exCitNew.work_id → y ∈ upsertCitation [exCitOld] exCitNew :=
  upsertCitation_conflict_frame [exCitOld] exCitNew exCitOld (by simp) rfl

/-! ## C4: Twitter fallback activation -/

/-- C4 counterexample: a primary-tier HTTP 429 rate-limit response does not
invoke the Apify scraping tier, even with a configured token and available
scraped items — the run just logs the warning and proceeds with no tweets. -/
theorem rate_limit_no_fallback_cex :
    gatherTweets (.httpFail 429) true (.items [exTweet]) = .gathered [] false ∧
    usedFallback (gatherTweets (.httpFail 429) true (.items [exTweet])) = false :=
  ⟨rfl, rfl⟩

/-- C4 (amended): the Apify scraping tier is invoked exactly when the primary
API request raises an exception and the Apify token is configured; any
HTTP-level failure status of the primary tier (429 rate limit, 401
authentication failure, ...) is only logged and produces an empty gathering
without fallback, and a raised exception with no Apify token aborts the
connector run. -/
theorem fallback_iff_primary_raised (p : PrimaryFetch) (cfg : Bool) (a : ApifyFetch) :
    (usedFallback (gatherTweets p cfg a) = true ↔ p = .raised ∧ cfg = true) ∧
    (∀ s : ℕ, gatherTweets (.httpFail s) cfg a = .gathered [] false) ∧
    gatherTweets .raised false a = .aborted := by
  cases p <;> cases cfg <;> cases a <;>
    simp [gatherTweets, usedFallback]

/-- C4 witness for the amended statement: a raised primary-tier exception with
a configured Apify token does use the fallback. -/
theorem fallback_iff_primary_raised_witness :
    usedFallback (gatherTweets .raised true (.items [exTweet])) = true :=
  (fallback_iff_primary_raised .raised true (.items [exTweet])).1.mpr ⟨rfl, rfl⟩

/-! ## C9: discovery delta -/

/-- C9 counterexample: the Reddit-search discovery strategy subtracts only the
configured set, so a subreddit already present in the stored
`discovered_subreddits` set (here "islam") is still reported as new when it is
absent from the configured feed URLs. -/
theorem reddit_delta_ignores_stored_set_cex :
    "islam" ∈ redditNewDelta {"islam"} [] ∧
    "islam" ∈ ({"islam"} : Finset String) := by
  constructor
  · simp [redditNewDelta, currentFromUrls]
  · simp

/-- C9 (amended): every identifier in the delta of the Google-search strategy
is a discovered identifier absent from both the configured connector set and
the previously-discovered stored set; the delta of the Reddit-search strategy
only guarantees absence from the configured set (it never consults the stored
set). -/
theorem discovery_delta_membership (discovered : Finset String)
    (urls : List (List Char)) (db : Finset String) :
    (∀ s ∈ googleNewDelta discovered urls db,
        s ∈ discovered ∧ s ∉ currentFromUrls urls ∧ s ∉ db) ∧
    (∀ s ∈ redditNewDelta discovered urls,
        s ∈ discovered ∧ s ∉ currentFromUrls urls) := by
  constructor
  · intro s hs
    simp only [googleNewDelta, Finset.mem_sdiff] at hs
    exact ⟨hs.1.1, hs.1.2, hs.2⟩
  · intro s hs
    simp only [redditNewDelta, Finset.mem_sdiff] at hs
    exact hs

/-- C9 witness for the amended statement at a concrete delta element. -/
theorem discovery_delta_membership_witness :
    "pakistan" ∈ ({"pakistan"} : Finset String) ∧
    "pakistan" ∉ currentFromUrls [] :=
  (discovery_delta_membership {"pakistan"} [] ∅).2 "pakistan" (by
    simp [redditNewDelta, currentFromUrls])

/-! ## C8: sentiment text cleaning in both tiers -/

/-- C8 (code-bug evidence): on the text
`"Great work http://example.com  done"` the TextBlob tier cleans as the
specification describes (URL stripped, whitespace run collapsed), but the
transformer tier returns the text unchanged — its URL and whitespace
substitutions, written with a doubled backslash (`r"https?://\\S+"` and
`r"\\s+"`), match a literal backslash instead of the character classes, so
the text the model classifies still contains the URL and the double space. -/
theorem transformer_tier_cleaning_broken :
    cleanTextblob (strChars "Great work http://example.com  done")
      = strChars "Great work done" ∧
    cleanTransformer (strChars "Great work http://example.com  done")
      = strChars "Great work http://example.com  done" := by
  constructor
  · decide
  · decide

/-! ## C3: news connector does not validate title/link -/

/-- C3 counterexample: a feed with two valid entries and one entry missing its
link yields three stored records, not two — the missing link defaults to the
empty string and the entry is persisted, not skipped. -/
theorem news_missing_link_not_skipped_cex :
    (ingest_google_alerts 0 [exNewsE1, exNewsE2, exNewsE3] []).length = 3 ∧
    (ingest_google_alerts 0 [exNewsE1, exNewsE2, exNewsE3] []).length ≠ 2 ∧
    (newsRowOf 0 exNewsE3).url = "" := by
  exact ⟨by decide, by decide, rfl⟩

/-- Membership of a `(url, title)` key in the mapped key list, phrased as the
upsert conflict condition. -/
theorem newsKey_mem_iff (tbl : List NewsMention) (r : NewsMention) :
    keyOfNews r ∈ tbl.map keyOfNews ↔ ∃ x ∈ tbl, x.url = r.url ∧ x.title = r.title := by
  constructor
  · intro h
    obtain ⟨x, hx, hk⟩ := List.mem_map.mp h
    exact ⟨x, hx, congrArg Prod.fst hk, congrArg Prod.snd hk⟩
  · rintro ⟨x, hx, h1, h2⟩
    exact List.mem_map.mpr ⟨x, hx, by simp [keyOfNews, h1, h2]⟩

/-- The news-connector fold persists one row per entry whenever all the
`(url, title)` keys involved are fresh and pairwise distinct. -/
theorem ingest_ga_fresh_length (now : ℤ) :
    ∀ (entries : List FeedEntry) (tbl : List NewsMention),
      (entries.map (fun e => keyOfNews (newsRowOf now e))).Nodup →
      (∀ e ∈ entries, keyOfNews (newsRowOf now e) ∉ tbl.map keyOfNews) →
      (ingest_google_alerts now entries tbl).length = tbl.length + entries.length := by
  intro entries
  induction entries with
  | nil => intro tbl _ _; simp [ingest_google_alerts]
  | cons e es ih =>
    intro tbl hnd hfresh
    have hkey : ¬ ∃ x ∈ tbl, x.url = (newsRowOf now e).url ∧ x.title = (newsRowOf now e).title :=
      fun hc => hfresh e (by simp) ((newsKey_mem_iff tbl _).mpr hc)
    have hstep : ingest_google_alerts now (e :: es) tbl
        = ingest_google_alerts now es (tbl ++ [newsRowOf now e]) := by
      simp [ingest_google_alerts, upsertNewsMention, hkey]
    rw [List.map_cons] at hnd
    have hhd := (List.nodup_cons.mp hnd).1
    have hnd' := (List.nodup_cons.mp hnd).2
    have hfresh' : ∀ e' ∈ es,
        keyOfNews (newsRowOf now e') ∉ (tbl ++ [newsRowOf now e]).map keyOfNews := by
      intro e' he' hmem
      rw [List.map_append] at hmem
      rcases List.mem_append.mp hmem with h | h
      · exact hfresh e' (List.mem_cons_of_mem _ he') h
      · have heq : keyOfNews (newsRowOf now e') = keyOfNews (newsRowOf now e) := by
          simpa using h
        exact hhd (heq ▸ List.mem_map_of_mem _ he')
    rw [hstep, ih (tbl ++ [newsRowOf now e]) hnd' hfresh']
    simp [List.length_append]
    omega

/-- C3 (amended): the news connector performs no title/link validation: an
entry missing its link (or title) is persisted with the empty string in the
missing field, so a feed whose derived `(url, title)` keys are pairwise
distinct yields exactly one stored record per entry — a feed with 2 valid
entries and 1 entry missing its link yields 3 records, not 2. -/
theorem news_connector_persists_all (now : ℤ) (entries : List FeedEntry)
    (hnd : (entries.map (fun e => keyOfNews (newsRowOf now e))).Nodup) :
    (ingest_google_alerts now entries []).length = entries.length := by
  simpa using ingest_ga_fresh_length now entries [] hnd (by simp)

/-- C3 witness for the amended statement at the 2-valid-plus-1-invalid feed. -/
theorem news_connector_persists_all_witness :
    (ingest_google_alerts 0 [exNewsE1, exNewsE2, exNewsE3] []).length
      = [exNewsE1, exNewsE2, exNewsE3].length :=
  news_connector_persists_all 0 [exNewsE1, exNewsE2, exNewsE3] (by decide)

/-! ## C2: Reddit relevance filter precedes truncation -/

set_option maxRecDepth 10000 in
/-- C2: whether a Reddit feed entry is ingested depends only on its id being
nonempty and on the relevance filter over the *untruncated* title-plus-summary
text — never on the 1000-character storage truncation.  Concretely,
`exLateRedditEntry`, whose only match term starts after character 1100 of the
summary, is ingested, and its *stored* content is the truncated first 1000
characters, which no longer contain the match term; an entry whose full text
lacks both match terms fails the right-hand side and is excluded. -/
theorem reddit_filter_before_truncate :
    (∀ (unescape : List Char → List Char) (sentimentOf : List Char → String × ℚ)
        (now : ℤ) (e : RedditEntry),
        (processRedditEntry unescape sentimentOf now e).isSome = true ↔
          e.post_id ≠ "" ∧ redditRelevant e.title e.summary = true) ∧
    (processRedditEntry id (fun _ => ("neutral", 0)) 0 exLateRedditEntry).map
        (fun m => m.content) = some (List.replicate 1000 'x') ∧
    containsSub (strChars "ummatic") (List.replicate 1000 'x') = false := by
  refine ⟨?_, by decide, by decide⟩
  intro unescape sentimentOf now e
  unfold processRedditEntry
  by_cases h1 : e.post_id = ""
  · simp [h1]
  · cases hb : redditRelevant e.title e.summary with
    | false => simp [h1, hb]
    | true => simp [h1, hb]

/-- C2 witness: a short relevant entry is ingested. -/
theorem reddit_filter_before_truncate_witness :
    (processRedditEntry id (fun _ => ("neutral", 0)) 0 exShortRedditEntry).isSome = true :=
  (reddit_filter_before_truncate.1 id (fun _ => ("neutral", 0)) 0 exShortRedditEntry).mpr
    ⟨by decide, by decide⟩

/-! ## C10: week_start_date comes from the run date -/

/-- C10: every social-mention row built by the Reddit or Twitter connector
stores as `week_start_date` the Monday of the week containing the run date
`now` — which `get_current_week_dates` indeed computes: its first component
has weekday 0 and contains `now` in its 7-day window — independently of the
posted-at timestamp of the record: when the record was posted in a different
week, the stored `week_start_date` still is the Monday of the run week and
differs from the Monday of the posted-at week. -/
theorem week_start_date_from_run_date :
    (∀ (unescape : List Char → List Char) (sentimentOf : List Char → String × ℚ)
        (now : ℤ) (e : RedditEntry) (m : SocialMention),
        processRedditEntry unescape sentimentOf now e = some m →
        m.week_start_date = (get_current_week_dates now).1) ∧
    (∀ (sentimentOf : List Char → String × ℚ) (now : ℤ) (t : Tweet),
        (twitterMentionRow sentimentOf now t).week_start_date
          = (get_current_week_dates now).1) ∧
    (∀ d : ℤ, weekdayOf (get_current_week_dates d).1 = 0 ∧
        (get_current_week_dates d).1 ≤ d ∧ d ≤ (get_current_week_dates d).1 + 6) ∧
    (∀ (sentimentOf : List Char → String × ℚ) (now : ℤ) (t : Tweet),
        (get_current_week_dates t.posted_at).1 ≠ (get_current_week_dates now).1 →
        (twitterMentionRow sentimentOf now t).week_start_date
          ≠ (get_current_week_dates t.posted_at).1) := by
  refine ⟨?_, fun _ _ _ => rfl, ?_, ?_⟩
  · intro unescape sentimentOf now e m h
    unfold processRedditEntry at h
    by_cases h1 : e.post_id = ""
    · simp [h1] at h
    · cases hb : redditRelevant e.title e.summary with
      | false => simp [h1, hb] at h
      | true =>
        simp only [h1, hb, if_neg, if_false] at h
        rw [if_neg (by simp : ¬((true : Bool) = false))] at h
        cases h
        rfl
  · intro d
    unfold get_current_week_dates weekdayOf
    refine ⟨?_, ?_, ?_⟩ <;> omega
  · intro sentimentOf now t hne
    exact Ne.symm hne

/-- C10 witness: a tweet posted on day 0 (a Thursday, Monday of that week is
day −3) ingested on day 4 (a Monday) is stored under week start 4, not −3. -/
theorem week_start_date_from_run_date_witness :
    (twitterMentionRow (fun _ => ("neutral", 0)) 4 exTweet).week_start_date
      = (get_current_week_dates 4).1 ∧
    (twitterMentionRow (fun _ => ("neutral", 0)) 4 exTweet).week_start_date
      ≠ (get_current_week_dates exTweet.posted_at).1 :=
  ⟨week_start_date_from_run_date.2.1 (fun _ => ("neutral", 0)) 4 exTweet,
   week_start_date_from_run_date.2.2.2 (fun _ => ("neutral", 0)) 4 exTweet (by decide)⟩

end ImpactMonitor
